import Mathlib

/-!
Formal model of the OpenCode session-management plugin (`src/index.ts`).

The plugin keeps three in-memory `Map`s keyed by session id
(`pendingMessages`, `pendingCompactions`, `activeCompactions`), reacts to
`session.idle` and `session.compacted` lifecycle events, and exposes a
`session` tool whose `execute` handler implements four workflow modes
(`message`, `new`, `compact`, `fork`).

Modelling conventions:
* Remote calls (`ctx.client.session.*`, `ctx.client.tui.showToast`) are
  modelled by an oracle (`Env`) giving each call's outcome, and every call a
  run performs is recorded in order in a trace (`List Call`).
* JavaScript `a || b` on optional strings, where both `undefined` and the
  empty string are falsy, is modelled by `jsOrS` / `jsOrD`; truthiness of an
  optional string is `truthyS`.
* `tools` values travel in their JSON-serialized string form: the code calls
  `JSON.stringify` when inheriting a tools map and hands the string to
  `JSON.parse` when building a prompt body, so a prompt body here carries the
  serialized string unchanged.
* The fire-and-forget `summarize` call is not awaited by the `session.idle`
  handler; its `.catch` continuation is modelled as the separate transition
  `onSummarizeRejected`.
-/

deriving instance DecidableEq for Except

namespace Sessions

/-- Session identifiers are opaque strings (the universal store key). -/
abbrev SessionID := String

/-- JavaScript `a || b` on two optional strings: `undefined` and `""` are
falsy, so they fall through to `b`. -/
def jsOrS : Option String → Option String → Option String
  | some s, b => if s = "" then b else some s
  | none, b => b

/-- JavaScript `a || b` where `b` is a plain (always truthy) string. -/
def jsOrD : Option String → String → String
  | some s, b => if s = "" then b else s
  | none, b => b

/-- JavaScript truthiness of an optional string value. -/
def truthyS : Option String → Bool
  | some s => !(s == "")
  | none => false

/-- A keyed in-memory store, modelling a JavaScript `Map<string, α>`. -/
structure Store (α : Type) where
  entries : List (SessionID × α)
deriving Repr, DecidableEq

namespace Store

variable {α : Type}

/-- `Map.get`: the value stored under `k`, if any. -/
def get (s : Store α) (k : SessionID) : Option α :=
  (s.entries.find? (fun e => e.1 == k)).map (·.2)

/-- `Map.set`: overwrite semantics, at most one entry per key afterwards. -/
def set (s : Store α) (k : SessionID) (v : α) : Store α :=
  ⟨(k, v) :: s.entries.filter (fun e => e.1 != k)⟩

/-- `Map.delete`. -/
def erase (s : Store α) (k : SessionID) : Store α :=
  ⟨s.entries.filter (fun e => e.1 != k)⟩

/-- How many entries the store holds under key `k`. -/
def countKey (s : Store α) (k : SessionID) : Nat :=
  (s.entries.filter (fun e => e.1 == k)).length

theorem find?_filter_of_imp {p q : SessionID × α → Bool}
    (l : List (SessionID × α)) (h : ∀ x, p x = true → q x = true) :
    (l.filter q).find? p = l.find? p := by
  induction l with
  | nil => rfl
  | cons a l ih =>
    by_cases hp : p a = true
    · have hq := h a hp
      rw [List.filter_cons_of_pos hq, List.find?_cons_of_pos _ hp,
        List.find?_cons_of_pos _ hp]
    · have hp' : ¬ p a = true := hp
      by_cases hq : q a = true
      · rw [List.filter_cons_of_pos hq, List.find?_cons_of_neg _ hp',
          List.find?_cons_of_neg _ hp', ih]
      · rw [List.filter_cons_of_neg (by simpa using hq),
          List.find?_cons_of_neg _ hp', ih]

theorem get_set_self (s : Store α) (k : SessionID) (v : α) :
    (s.set k v).get k = some v := by
  simp [get, set, List.find?_cons_of_pos]

theorem get_set_ne (s : Store α) (k k' : SessionID) (v : α) (h : k' ≠ k) :
    (s.set k v).get k' = s.get k' := by
  unfold get set
  rw [List.find?_cons_of_neg _ (by simpa using fun hk => h hk.symm),
    find?_filter_of_imp]
  intro x hx
  simp only [beq_iff_eq] at hx
  simp [bne_iff_ne, hx, h]

theorem get_erase_self (s : Store α) (k : SessionID) :
    (s.erase k).get k = none := by
  unfold get erase
  rw [List.find?_eq_none.mpr]
  · rfl
  · intro x hx
    have := (List.mem_filter.mp hx).2
    simp only [bne_iff_ne, ne_eq, decide_eq_true_eq] at this
    simp [this]

theorem get_erase_ne (s : Store α) (k k' : SessionID) (h : k' ≠ k) :
    (s.erase k).get k' = s.get k' := by
  unfold get erase
  rw [find?_filter_of_imp]
  intro x hx
  simp only [beq_iff_eq] at hx
  simp [bne_iff_ne, hx, h]

theorem countKey_set_self (s : Store α) (k : SessionID) (v : α) :
    (s.set k v).countKey k = 1 := by
  unfold countKey set
  rw [List.filter_cons_of_pos (by simp)]
  have : (s.entries.filter (fun e => e.1 != k)).filter (fun e => e.1 == k) = [] := by
    rw [List.filter_eq_nil_iff]
    intro x hx
    have := (List.mem_filter.mp hx).2
    simp only [bne_iff_ne, ne_eq, decide_eq_true_eq] at this
    simp [this]
  rw [this]
  rfl

end Store

/-- `PendingMessage` (src/index.ts:183-191): a relay staged by mode
`message`, consumed on the session's next `session.idle`. -/
structure PendingMessage where
  agent : Option String
  modelID : Option String
  providerID : Option String
  system : Option String
  tools : Option String
  text : String
  directory : String
deriving Repr, DecidableEq

/-- `CompactionRequest` (src/index.ts:162-170): a compaction staged by mode
`compact`; `providerID` and `modelID` are non-optional. -/
structure CompactionRequest where
  providerID : String
  modelID : String
  agent : Option String
  system : Option String
  tools : Option String
  text : String
  directory : String
deriving Repr, DecidableEq

/-- `CompactionState` (src/index.ts:172-181): an in-flight compaction,
created when a `CompactionRequest` is promoted on `session.idle`. -/
structure CompactionState where
  phase : String
  agent : Option String
  modelID : Option String
  providerID : Option String
  system : Option String
  tools : Option String
  text : String
  directory : String
deriving Repr, DecidableEq

/-- The three process-wide stores (src/index.ts:204-210). -/
structure PState where
  pendingMessages : Store PendingMessage
  pendingCompactions : Store CompactionRequest
  activeCompactions : Store CompactionState
deriving Repr, DecidableEq

/-- The `(modelID, providerID)` object sent in a prompt body; each component
is optional because mode `new`/`fork` build it from possibly-absent values. -/
structure ModelPair where
  modelID : Option String
  providerID : Option String
deriving Repr, DecidableEq

/-- The body handed to `ctx.client.session.prompt` / `promptAsync`.  The
`tools` field is the serialized permission map (the code applies
`JSON.parse` to it when present). -/
structure PromptBody where
  agent : Option String := none
  model : Option ModelPair := none
  system : Option String := none
  tools : Option String := none
  parts : List String := []
  noReply : Bool := false
deriving Repr, DecidableEq

/-- One remote call, as recorded in a run's trace. -/
inductive Call where
  | messages (sid : SessionID) (directory : String)
  | create (directory : String) (title : String)
  | fork (sid : SessionID) (directory : String)
  | update (sid : SessionID) (directory : String) (title : String)
  | prompt (sid : SessionID) (directory : String) (body : PromptBody)
  | promptAsync (sid : SessionID) (directory : String) (body : PromptBody)
  | summarize (sid : SessionID) (directory : String)
      (providerID : String) (modelID : String)
  | toast (message : String) (variant : String)
  | sleep (ms : Nat)
deriving Repr, DecidableEq

/-- A lifecycle event delivered to the plugin's `event` hook.  Events whose
payload carries no `sessionID`, and event types other than `session.idle`
and `session.compacted`, are all modelled by `other` (the hook ignores
them, src/index.ts:216-218). -/
inductive Event where
  | idle (sid : SessionID)
  | compacted (sid : SessionID)
  | other
deriving Repr, DecidableEq

/-- The fixed settle delay before the post-compaction prompt
(src/index.ts:299): 100 ms for the compaction lock to release. -/
def settleDelayMs : Nat := 100

/-- Prompt body built by the `session.idle` relay branch
(src/index.ts:230-248): the model pair is sent only when both `modelID`
and `providerID` are truthy. -/
def messagePromptBody (pm : PendingMessage) : PromptBody :=
  { agent := pm.agent
    model := if truthyS pm.modelID && truthyS pm.providerID then
        some ⟨pm.modelID, pm.providerID⟩ else none
    system := pm.system
    tools := pm.tools
    parts := [pm.text]
    noReply := false }

/-- Prompt body built by the `session.compacted` branch
(src/index.ts:303-319) from the stored `CompactionState`. -/
def compactedPromptBody (cs : CompactionState) : PromptBody :=
  { agent := cs.agent
    model := if truthyS cs.modelID && truthyS cs.providerID then
        some ⟨cs.modelID, cs.providerID⟩ else none
    system := cs.system
    tools := cs.tools
    parts := [cs.text]
    noReply := false }

/-- Promotion of a staged `CompactionRequest` into the `CompactionState`
stored in `activeCompactions` (src/index.ts:261-270): every payload field is
copied and the phase marker is added. -/
def promote (pc : CompactionRequest) : CompactionState :=
  { phase := "compacting"
    agent := pc.agent
    modelID := some pc.modelID
    providerID := some pc.providerID
    system := pc.system
    tools := pc.tools
    text := pc.text
    directory := pc.directory }

/-- The plugin's `event` hook (src/index.ts:214-325) as a pure transition:
given the stores and an event, it returns the updated stores and the trace
of remote calls it issues.  Failures of the awaited prompts are swallowed
(`catch {}`) and change no state, so they need no oracle here; the
fire-and-forget `summarize` rejection is the separate transition
`onSummarizeRejected`. -/
def handleEvent (st : PState) (ev : Event) : PState × List Call :=
  match ev with
  | .idle sid =>
    match st.pendingMessages.get sid with
    | some pm =>
      ({ st with pendingMessages := st.pendingMessages.erase sid },
       [Call.prompt sid pm.directory (messagePromptBody pm)])
    | none =>
      match st.pendingCompactions.get sid with
      | some pc =>
        ({ st with
            pendingCompactions := st.pendingCompactions.erase sid
            activeCompactions := st.activeCompactions.set sid (promote pc) },
         [Call.summarize sid pc.directory pc.providerID pc.modelID])
      | none => (st, [])
  | .compacted sid =>
    match st.activeCompactions.get sid with
    | some cs =>
      ({ st with activeCompactions := st.activeCompactions.erase sid },
       [Call.sleep settleDelayMs,
        Call.prompt sid cs.directory (compactedPromptBody cs)])
    | none => (st, [])
  | .other => (st, [])

/-- The `.catch` continuation attached to the fire-and-forget summarize call
(src/index.ts:282-284): it deletes the active-compaction entry and performs
no further calls (no retry, no notification). -/
def onSummarizeRejected (st : PState) (sid : SessionID) : PState × List Call :=
  ({ st with activeCompactions := st.activeCompactions.erase sid }, [])

/-- The four values of the tool's `mode` argument. -/
inductive Mode where
  | message
  | new
  | compact
  | fork
deriving Repr, DecidableEq

/-- The arguments of the `session` tool (src/index.ts:398-443). -/
structure Args where
  text : String
  mode : Mode
  agent : Option String := none
  directory : Option String := none
  title : Option String := none
  modelID : Option String := none
  providerID : Option String := none
  system : Option String := none
  tools : Option String := none
  async : Option Bool := none
deriving Repr, DecidableEq

/-- The tool execution context: the invoking session and its directory. -/
structure ToolCtx where
  sessionID : SessionID
  directory : String
deriving Repr, DecidableEq

/-- One record from `session.messages`, restricted to the `info` fields the
plugin reads.  `tools` is carried as its JSON serialization (the code calls
`JSON.stringify` on the structured value when inheriting it,
src/index.ts:462-464). -/
structure MsgInfo where
  role : String
  agent : Option String := none
  modelID : Option String := none
  providerID : Option String := none
  system : Option String := none
  tools : Option String := none
deriving Repr, DecidableEq

/-- The remote-call oracle: the outcome (normal return, or thrown error
message) of each remote call an `execute` run may perform.  Each of these
calls is made at most once per invocation. -/
structure Env where
  messages : Except String (List MsgInfo)
  create : Except String SessionID := .ok ""
  fork : Except String SessionID := .ok ""
  update : Except String Unit := .ok ()
  prompt : Except String Unit := .ok ()
  promptAsync : Except String Unit := .ok ()
  toast : Except String Unit := .ok ()
deriving Repr, DecidableEq

/-- The observable result of one `execute` invocation: the final stores, the
ordered trace of remote calls made, and either the returned string
(`Except.ok`) or an exception that escaped the handler (`Except.error`). -/
structure ExecResult where
  state : PState
  calls : List Call
  outcome : Except String String
deriving Repr, DecidableEq

/-- `msgs.data.filter(m => m.info.role === "assistant").pop()`
(src/index.ts:454-456): the most recent assistant message in arrival
order. -/
def lastAssistant (msgs : List MsgInfo) : Option MsgInfo :=
  (msgs.filter (fun m => m.role == "assistant")).getLast?

/-- `(lastAssistant?.info as any)?.agent` (src/index.ts:458). -/
def inheritedAgent (msgs : List MsgInfo) : Option String :=
  (lastAssistant msgs).bind (·.agent)

/-- `(lastAssistant?.info as any)?.modelID` (src/index.ts:459). -/
def inheritedModelID (msgs : List MsgInfo) : Option String :=
  (lastAssistant msgs).bind (·.modelID)

/-- `(lastAssistant?.info as any)?.providerID` (src/index.ts:460). -/
def inheritedProviderID (msgs : List MsgInfo) : Option String :=
  (lastAssistant msgs).bind (·.providerID)

/-- `(lastAssistant?.info as any)?.system` (src/index.ts:461). -/
def inheritedSystem (msgs : List MsgInfo) : Option String :=
  (lastAssistant msgs).bind (·.system)

/-- The inherited tools string (src/index.ts:462-464), already in serialized
form. -/
def inheritedTools (msgs : List MsgInfo) : Option String :=
  (lastAssistant msgs).bind (·.tools)

/-- The outer `catch` of the `session` tool handler (src/index.ts:655-669):
show a toast — itself an awaited remote call — and return
`"Error: <message>"`.  When the toast call rejects, that rejection escapes
the handler. -/
def runCatch (env : Env) (st : PState) (calls : List Call) (msg : String) :
    ExecResult :=
  { state := st
    calls := calls ++ [Call.toast ("Session operation failed: " ++ msg) "error"]
    outcome := match env.toast with
      | .ok _ => .ok ("Error: " ++ msg)
      | .error e => .error e }

/-- The `PendingMessage` staged by mode `message` (src/index.ts:469-477):
each field is the explicit argument when truthy, else the inherited value. -/
def relayPayload (msgs : List MsgInfo) (args : Args) (dir : String) :
    PendingMessage :=
  { agent := jsOrS args.agent (inheritedAgent msgs)
    modelID := jsOrS args.modelID (inheritedModelID msgs)
    providerID := jsOrS args.providerID (inheritedProviderID msgs)
    system := jsOrS args.system (inheritedSystem msgs)
    tools := jsOrS args.tools (inheritedTools msgs)
    text := args.text
    directory := dir }

/-- The `CompactionRequest` staged by mode `compact` (src/index.ts:572-580),
given the already-resolved provider and model ids. -/
def compactPayload (msgs : List MsgInfo) (args : Args) (dir p m : String) :
    CompactionRequest :=
  { providerID := p
    modelID := m
    agent := jsOrS args.agent (inheritedAgent msgs)
    system := jsOrS args.system (inheritedSystem msgs)
    tools := jsOrS args.tools (inheritedTools msgs)
    text := args.text
    directory := dir }

/-- The prompt body built by modes `new` and `fork` (src/index.ts:500-537,
611-649): the model object is sent whenever `args.modelID || inheritedModelID`
is truthy, with a possibly absent provider id inside it. -/
def firstPromptBody (msgs : List MsgInfo) (args : Args) (agent : String) :
    PromptBody :=
  { agent := some agent
    model := if truthyS (jsOrS args.modelID (inheritedModelID msgs)) then
        some ⟨jsOrS args.modelID (inheritedModelID msgs),
              jsOrS args.providerID (inheritedProviderID msgs)⟩
      else none
    system := jsOrS args.system (inheritedSystem msgs)
    tools := jsOrS args.tools (inheritedTools msgs)
    parts := [args.text]
    noReply := false }

/-- The no-reply marker prompt injected by mode `compact`
(src/index.ts:555-569). -/
def markerBody (args : Args) : PromptBody :=
  { noReply := true
    parts := [if truthyS args.agent then
        "[Session will compact after this response - " ++ jsOrD args.agent ""
          ++ " agent will continue]"
      else "[Session will compact after this response]"] }

/-- Mode `message` (src/index.ts:467-480): stage a `PendingMessage` for the
current session (overwrite semantics) and acknowledge immediately; no
remote call is made by this branch. -/
def execMessage (msgs : List MsgInfo) (st : PState) (args : Args)
    (tctx : ToolCtx) (dir : String) (calls : List Call) : ExecResult :=
  { state := { st with pendingMessages :=
      st.pendingMessages.set tctx.sessionID (relayPayload msgs args dir) }
    calls := calls
    outcome := .ok (if truthyS args.agent then
        "Message sent to " ++ jsOrD args.agent ""
          ++ " agent. They will respond in this conversation."
      else "Message sent. Awaiting response in this conversation.") }

/-- Mode `new` (src/index.ts:482-542): create a session, send the first
prompt into it (awaited, or fire-and-forget when `args.async` is true), and
return an acknowledgement naming the agent and the new session id. -/
def execNew (env : Env) (msgs : List MsgInfo) (st : PState) (args : Args)
    (dir : String) (calls : List Call) : ExecResult :=
  let title := jsOrD args.title
    (if truthyS (jsOrS args.agent (inheritedAgent msgs)) then
        "Session via " ++ jsOrD (jsOrS args.agent (inheritedAgent msgs)) ""
      else "New session")
  let calls := calls ++ [Call.create dir title]
  match env.create with
  | .error e => runCatch env st calls e
  | .ok newID =>
    let agent := jsOrD (jsOrS args.agent (inheritedAgent msgs)) "build"
    let body := firstPromptBody msgs args agent
    if args.async.getD false then
      match env.promptAsync with
      | .error e => runCatch env st (calls ++ [Call.promptAsync newID dir body]) e
      | .ok _ =>
        { state := st
          calls := calls ++ [Call.promptAsync newID dir body]
          outcome := .ok ("New session created with " ++ agent
            ++ " agent (async prompt, ID: " ++ newID ++ ")") }
    else
      match env.prompt with
      | .error e => runCatch env st (calls ++ [Call.prompt newID dir body]) e
      | .ok _ =>
        { state := st
          calls := calls ++ [Call.prompt newID dir body]
          outcome := .ok ("New session created with " ++ agent
            ++ " agent (ID: " ++ newID ++ ")") }

/-- Mode `compact` (src/index.ts:544-588): require a resolved provider and
model pair (explicit argument or inherited), inject the no-reply marker
prompt, then stage a `CompactionRequest`; the summarize call itself is left
to the `session.idle` handler. -/
def execCompact (env : Env) (msgs : List MsgInfo) (st : PState) (args : Args)
    (tctx : ToolCtx) (dir : String) (calls : List Call) : ExecResult :=
  let providerID := jsOrS args.providerID (inheritedProviderID msgs)
  let modelID := jsOrS args.modelID (inheritedModelID msgs)
  if !truthyS providerID || !truthyS modelID then
    { state := st
      calls := calls
      outcome := .ok "Error: No assistant messages found in session. Cannot determine model for compaction." }
  else
    let calls := calls ++ [Call.prompt tctx.sessionID dir (markerBody args)]
    match env.prompt with
    | .error e => runCatch env st calls e
    | .ok _ =>
      { state := { st with pendingCompactions :=
          (st.pendingCompactions.set tctx.sessionID
            (compactPayload msgs args dir (jsOrD providerID "") (jsOrD modelID ""))) }
        calls := calls
        outcome := .ok (if truthyS args.agent then
            "I\x27ll compact the session after completing this response, then hand off to "
              ++ jsOrD args.agent "" ++ "."
          else "I\x27ll compact the session after completing this response.") }

/-- The prompt-sending tail of mode `fork` (src/index.ts:606-653). -/
def execForkSend (env : Env) (msgs : List MsgInfo) (st : PState) (args : Args)
    (dir : String) (calls : List Call) (forkID : SessionID) : ExecResult :=
  let agent := jsOrD (jsOrS args.agent (inheritedAgent msgs)) "build"
  let body := firstPromptBody msgs args agent
  if args.async.getD false then
    match env.promptAsync with
    | .error e => runCatch env st (calls ++ [Call.promptAsync forkID dir body]) e
    | .ok _ =>
      { state := st
        calls := calls ++ [Call.promptAsync forkID dir body]
        outcome := .ok ("Forked session with " ++ agent
          ++ " agent (async prompt) - history preserved (ID: " ++ forkID ++ ")") }
  else
    match env.prompt with
    | .error e => runCatch env st (calls ++ [Call.prompt forkID dir body]) e
    | .ok _ =>
      { state := st
        calls := calls ++ [Call.prompt forkID dir body]
        outcome := .ok ("Forked session with " ++ agent
          ++ " agent - history preserved (ID: " ++ forkID ++ ")") }

/-- Mode `fork` (src/index.ts:590-653): fork the current session, retitle
the fork when a title argument is given, then send the new message into the
fork. -/
def execFork (env : Env) (msgs : List MsgInfo) (st : PState) (args : Args)
    (tctx : ToolCtx) (dir : String) (calls : List Call) : ExecResult :=
  let calls := calls ++ [Call.fork tctx.sessionID dir]
  match env.fork with
  | .error e => runCatch env st calls e
  | .ok forkID =>
    if truthyS args.title then
      match env.update with
      | .error e =>
        runCatch env st (calls ++ [Call.update forkID dir (jsOrD args.title "")]) e
      | .ok _ =>
        execForkSend env msgs st args dir
          (calls ++ [Call.update forkID dir (jsOrD args.title "")]) forkID
    else
      execForkSend env msgs st args dir calls forkID

/-- The `session` tool's `execute` handler (src/index.ts:445-670): resolve
the target directory, fetch the session's messages for context inheritance,
then dispatch on the mode; any thrown error reaches the outer catch
(`runCatch`). -/
def execute (env : Env) (st : PState) (args : Args) (tctx : ToolCtx) :
    ExecResult :=
  let dir := jsOrD args.directory tctx.directory
  let calls := [Call.messages tctx.sessionID tctx.directory]
  match env.messages with
  | .error e => runCatch env st calls e
  | .ok msgs =>
    match args.mode with
    | .message => execMessage msgs st args tctx dir calls
    | .new => execNew env msgs st args dir calls
    | .compact => execCompact env msgs st args tctx dir calls
    | .fork => execFork env msgs st args tctx dir calls

/-- The message of the first remote call to throw during an `execute` run
(the toast excluded), or `none` when no call throws.  Follows the call
order of `execute`. -/
def firstError (env : Env) (args : Args) : Option String :=
  match env.messages with
  | .error e => some e
  | .ok msgs =>
    match args.mode with
    | .message => none
    | .new =>
      match env.create with
      | .error e => some e
      | .ok _ =>
        match (if args.async.getD false then env.promptAsync else env.prompt) with
        | .error e => some e
        | .ok _ => none
    | .compact =>
      if !truthyS (jsOrS args.providerID (inheritedProviderID msgs))
          || !truthyS (jsOrS args.modelID (inheritedModelID msgs)) then none
      else
        match env.prompt with
        | .error e => some e
        | .ok _ => none
    | .fork =>
      match env.fork with
      | .error e => some e
      | .ok _ =>
        match (if truthyS args.title then env.update else Except.ok ()) with
        | .error e => some e
        | .ok _ =>
          match (if args.async.getD false then env.promptAsync else env.prompt) with
          | .error e => some e
          | .ok _ => none

/-- No-assistant histories inherit nothing: the filtered list is empty. -/
theorem lastAssistant_eq_none (msgs : List MsgInfo)
    (h : ∀ m ∈ msgs, m.role ≠ "assistant") : lastAssistant msgs = none := by
  unfold lastAssistant
  rw [List.filter_eq_nil_iff.mpr]
  · rfl
  · intro m hm
    simpa using h m hm

/-- Sample staged relay payload, used in concrete instantiations. -/
def pmW : PendingMessage :=
  { agent := some "plan", modelID := some "m1", providerID := some "p1"
    system := some "sys", tools := some "tjson", text := "hello"
    directory := "/w" }

/-- Sample staged compaction request, used in concrete instantiations. -/
def pcW : CompactionRequest :=
  { providerID := "p1", modelID := "m1", agent := some "plan"
    system := none, tools := none, text := "continue", directory := "/w" }

/-- Stores with both a relay and a compaction staged for session `s1`. -/
def stRelayW : PState :=
  { pendingMessages := ⟨[("s1", pmW)]⟩
    pendingCompactions := ⟨[("s1", pcW)]⟩
    activeCompactions := ⟨[]⟩ }

/-- Stores with only a compaction staged for session `s1`. -/
def stCompW : PState :=
  { pendingMessages := ⟨[]⟩
    pendingCompactions := ⟨[("s1", pcW)]⟩
    activeCompactions := ⟨[]⟩ }

/-- Stores with an active compaction for session `s1`. -/
def stActiveW : PState :=
  { pendingMessages := ⟨[]⟩
    pendingCompactions := ⟨[]⟩
    activeCompactions := ⟨[("s1", promote pcW)]⟩ }

/-- Empty stores. -/
def stEmptyW : PState :=
  { pendingMessages := ⟨[]⟩
    pendingCompactions := ⟨[]⟩
    activeCompactions := ⟨[]⟩ }

/-- C1: on a `session.idle` event for a session with a staged relay, the
relay entry is removed, exactly one prompt is sent carrying exactly the
staged payload (agent, model pair, system, serialized tools, text,
directory), and the pending-compaction store — and the active-compaction
store — are left unchanged. -/
theorem c1_idle_relay (st : PState) (sid : SessionID) (pm : PendingMessage)
    (h : st.pendingMessages.get sid = some pm) :
    (handleEvent st (Event.idle sid)).1.pendingMessages.get sid = none ∧
    (handleEvent st (Event.idle sid)).1.pendingCompactions = st.pendingCompactions ∧
    (handleEvent st (Event.idle sid)).1.activeCompactions = st.activeCompactions ∧
    (handleEvent st (Event.idle sid)).2
      = [Call.prompt sid pm.directory (messagePromptBody pm)] ∧
    (messagePromptBody pm).agent = pm.agent ∧
    (messagePromptBody pm).model
      = (if truthyS pm.modelID && truthyS pm.providerID
          then some ⟨pm.modelID, pm.providerID⟩ else none) ∧
    (messagePromptBody pm).system = pm.system ∧
    (messagePromptBody pm).tools = pm.tools ∧
    (messagePromptBody pm).parts = [pm.text] := by
  simp [handleEvent, h, Store.get_erase_self, messagePromptBody]

/-- C1 witness: the relay branch at concrete stores holding both a relay
and a compaction for `s1`. -/
theorem c1_idle_relay_witness :
    stRelayW.pendingMessages.get "s1" = some pmW ∧
    ((handleEvent stRelayW (Event.idle "s1")).1.pendingMessages.get "s1" = none ∧
     (handleEvent stRelayW (Event.idle "s1")).1.pendingCompactions
       = stRelayW.pendingCompactions ∧
     (handleEvent stRelayW (Event.idle "s1")).1.activeCompactions
       = stRelayW.activeCompactions ∧
     (handleEvent stRelayW (Event.idle "s1")).2
       = [Call.prompt "s1" pmW.directory (messagePromptBody pmW)] ∧
     (messagePromptBody pmW).agent = pmW.agent ∧
     (messagePromptBody pmW).model
       = (if truthyS pmW.modelID && truthyS pmW.providerID
           then some ⟨pmW.modelID, pmW.providerID⟩ else none) ∧
     (messagePromptBody pmW).system = pmW.system ∧
     (messagePromptBody pmW).tools = pmW.tools ∧
     (messagePromptBody pmW).parts = [pmW.text]) :=
  ⟨by decide, c1_idle_relay stRelayW "s1" pmW (by decide)⟩

/-- C2: on a `session.idle` event with no staged relay but a staged
compaction, the pending-compaction entry is removed, an active-compaction
entry with an identical payload plus the phase marker is created, and
exactly one summarize call is issued with the staged provider and model. -/
theorem c2_idle_compaction (st : PState) (sid : SessionID)
    (pc : CompactionRequest)
    (hm : st.pendingMessages.get sid = none)
    (hc : st.pendingCompactions.get sid = some pc) :
    (handleEvent st (Event.idle sid)).1.pendingCompactions.get sid = none ∧
    (handleEvent st (Event.idle sid)).1.activeCompactions.get sid
      = some (promote pc) ∧
    (promote pc).phase = "compacting" ∧
    (promote pc).agent = pc.agent ∧
    (promote pc).modelID = some pc.modelID ∧
    (promote pc).providerID = some pc.providerID ∧
    (promote pc).system = pc.system ∧
    (promote pc).tools = pc.tools ∧
    (promote pc).text = pc.text ∧
    (promote pc).directory = pc.directory ∧
    (handleEvent st (Event.idle sid)).1.pendingMessages = st.pendingMessages ∧
    (handleEvent st (Event.idle sid)).2
      = [Call.summarize sid pc.directory pc.providerID pc.modelID] := by
  simp [handleEvent, hm, hc, promote, Store.get_erase_self, Store.get_set_self]

/-- C2 witness: the compaction-promotion branch at concrete stores. -/
theorem c2_idle_compaction_witness :
    stCompW.pendingMessages.get "s1" = none ∧
    stCompW.pendingCompactions.get "s1" = some pcW ∧
    ((handleEvent stCompW (Event.idle "s1")).1.pendingCompactions.get "s1" = none ∧
     (handleEvent stCompW (Event.idle "s1")).1.activeCompactions.get "s1"
       = some (promote pcW) ∧
     (promote pcW).phase = "compacting" ∧
     (promote pcW).agent = pcW.agent ∧
     (promote pcW).modelID = some pcW.modelID ∧
     (promote pcW).providerID = some pcW.providerID ∧
     (promote pcW).system = pcW.system ∧
     (promote pcW).tools = pcW.tools ∧
     (promote pcW).text = pcW.text ∧
     (promote pcW).directory = pcW.directory ∧
     (handleEvent stCompW (Event.idle "s1")).1.pendingMessages
       = stCompW.pendingMessages ∧
     (handleEvent stCompW (Event.idle "s1")).2
       = [Call.summarize "s1" pcW.directory pcW.providerID pcW.modelID]) :=
  ⟨by decide, by decide, c2_idle_compaction stCompW "s1" pcW (by decide) (by decide)⟩

/-- C3: a `session.compacted` event with an active compaction deletes the
entry and sends exactly one prompt after the fixed settle delay, carrying
the staged agent, model pair, system and tools; without an active
compaction the event is a no-op. -/
theorem c3_compacted (st₁ : PState) (sid₁ : SessionID) (cs : CompactionState)
    (st₂ : PState) (sid₂ : SessionID)
    (h₁ : st₁.activeCompactions.get sid₁ = some cs)
    (h₂ : st₂.activeCompactions.get sid₂ = none) :
    (handleEvent st₁ (Event.compacted sid₁)).1.activeCompactions.get sid₁ = none ∧
    (handleEvent st₁ (Event.compacted sid₁)).1.pendingMessages = st₁.pendingMessages ∧
    (handleEvent st₁ (Event.compacted sid₁)).1.pendingCompactions
      = st₁.pendingCompactions ∧
    (handleEvent st₁ (Event.compacted sid₁)).2
      = [Call.sleep settleDelayMs,
         Call.prompt sid₁ cs.directory (compactedPromptBody cs)] ∧
    (compactedPromptBody cs).agent = cs.agent ∧
    (compactedPromptBody cs).model
      = (if truthyS cs.modelID && truthyS cs.providerID
          then some ⟨cs.modelID, cs.providerID⟩ else none) ∧
    (compactedPromptBody cs).system = cs.system ∧
    (compactedPromptBody cs).tools = cs.tools ∧
    (compactedPromptBody cs).parts = [cs.text] ∧
    handleEvent st₂ (Event.compacted sid₂) = (st₂, []) := by
  refine ⟨?_, ?_, ?_, ?_, ?_, ?_, ?_, ?_, ?_, ?_⟩ <;>
    simp [handleEvent, h₁, h₂, Store.get_erase_self, compactedPromptBody]

/-- C3 witness: the `session.compacted` branch, with and without an active
compaction, at concrete stores. -/
theorem c3_compacted_witness :
    stActiveW.activeCompactions.get "s1" = some (promote pcW) ∧
    stEmptyW.activeCompactions.get "s2" = none ∧
    ((handleEvent stActiveW (Event.compacted "s1")).1.activeCompactions.get "s1"
       = none ∧
     (handleEvent stActiveW (Event.compacted "s1")).1.pendingMessages
       = stActiveW.pendingMessages ∧
     (handleEvent stActiveW (Event.compacted "s1")).1.pendingCompactions
       = stActiveW.pendingCompactions ∧
     (handleEvent stActiveW (Event.compacted "s1")).2
       = [Call.sleep settleDelayMs,
          Call.prompt "s1" (promote pcW).directory
            (compactedPromptBody (promote pcW))] ∧
     (compactedPromptBody (promote pcW)).agent = (promote pcW).agent ∧
     (compactedPromptBody (promote pcW)).model
       = (if truthyS (promote pcW).modelID && truthyS (promote pcW).providerID
           then some ⟨(promote pcW).modelID, (promote pcW).providerID⟩ else none) ∧
     (compactedPromptBody (promote pcW)).system = (promote pcW).system ∧
     (compactedPromptBody (promote pcW)).tools = (promote pcW).tools ∧
     (compactedPromptBody (promote pcW)).parts = [(promote pcW).text] ∧
     handleEvent stEmptyW (Event.compacted "s2") = (stEmptyW, [])) :=
  ⟨by decide, by decide,
   c3_compacted stActiveW "s1" (promote pcW) stEmptyW "s2" (by decide) (by decide)⟩

/-- C6: when the fire-and-forget summarize call is rejected, its `.catch`
continuation deletes the active-compaction entry for the session, performs
no retry and no notification (no calls at all), and changes nothing else. -/
theorem c6_summarize_rejected (st : PState) (sid : SessionID) :
    (onSummarizeRejected st sid).1.activeCompactions.get sid = none ∧
    (∀ k, k ≠ sid →
      (onSummarizeRejected st sid).1.activeCompactions.get k
        = st.activeCompactions.get k) ∧
    (onSummarizeRejected st sid).1.pendingMessages = st.pendingMessages ∧
    (onSummarizeRejected st sid).1.pendingCompactions = st.pendingCompactions ∧
    (onSummarizeRejected st sid).2 = [] := by
  refine ⟨?_, ?_, rfl, rfl, rfl⟩
  · simp [onSummarizeRejected, Store.get_erase_self]
  · intro k hk
    simp [onSummarizeRejected, Store.get_erase_ne _ _ _ hk]

/-- Sample tool context used in concrete instantiations. -/
def tctxW : ToolCtx := { sessionID := "s1", directory := "/w" }

/-- An oracle whose message history is empty and whose calls all succeed. -/
def envEmptyW : Env := { messages := Except.ok [] }

/-- C4: in mode `compact` with no explicit provider/model argument and no
assistant message to inherit from, `execute` returns exactly the error
string, performs no remote call beyond the messages fetch (no marker
prompt, no summarize), and leaves the stores unchanged — nothing staged. -/
theorem c4_compact_no_model (env : Env) (st : PState) (args : Args)
    (tctx : ToolCtx) (msgs : List MsgInfo)
    (hmode : args.mode = Mode.compact)
    (hmsgs : env.messages = Except.ok msgs)
    (hp : args.providerID = none) (hm : args.modelID = none)
    (hna : ∀ m ∈ msgs, m.role ≠ "assistant") :
    (execute env st args tctx).outcome
      = Except.ok "Error: No assistant messages found in session. Cannot determine model for compaction." ∧
    (execute env st args tctx).calls
      = [Call.messages tctx.sessionID tctx.directory] ∧
    (execute env st args tctx).state = st := by
  have hla := lastAssistant_eq_none msgs hna
  refine ⟨?_, ?_, ?_⟩ <;>
    simp [execute, hmsgs, hmode, execCompact, inheritedProviderID,
      inheritedModelID, hla, hp, hm, jsOrS, truthyS]

/-- Sample compact-mode arguments with no model information. -/
def argsCompactW : Args := { text := "go", mode := Mode.compact }

/-- C4 witness: compact mode over an empty message history. -/
theorem c4_compact_no_model_witness :
    argsCompactW.mode = Mode.compact ∧
    envEmptyW.messages = Except.ok [] ∧
    argsCompactW.providerID = none ∧
    argsCompactW.modelID = none ∧
    ((execute envEmptyW stEmptyW argsCompactW tctxW).outcome
       = Except.ok "Error: No assistant messages found in session. Cannot determine model for compaction." ∧
     (execute envEmptyW stEmptyW argsCompactW tctxW).calls
       = [Call.messages tctxW.sessionID tctxW.directory] ∧
     (execute envEmptyW stEmptyW argsCompactW tctxW).state = stEmptyW) :=
  ⟨rfl, rfl, rfl, rfl,
   c4_compact_no_model envEmptyW stEmptyW argsCompactW tctxW [] rfl rfl rfl rfl
     (by simp)⟩

/-- C5: two `message`-mode invocations for the same session with no
intervening `idle` event leave exactly one pending-relay entry for that
session, and its payload is the one staged by the second call (last writer
wins). -/
theorem c5_relay_last_writer (env₁ env₂ : Env) (st : PState)
    (args₁ args₂ : Args) (tctx : ToolCtx) (msgs₁ msgs₂ : List MsgInfo)
    (h₁ : env₁.messages = Except.ok msgs₁)
    (h₂ : env₂.messages = Except.ok msgs₂)
    (hm₁ : args₁.mode = Mode.message) (hm₂ : args₂.mode = Mode.message) :
    (execute env₂ (execute env₁ st args₁ tctx).state args₂ tctx).state.pendingMessages.get
        tctx.sessionID
      = some (relayPayload msgs₂ args₂ (jsOrD args₂.directory tctx.directory)) ∧
    (execute env₂ (execute env₁ st args₁ tctx).state args₂ tctx).state.pendingMessages.countKey
        tctx.sessionID = 1 := by
  refine ⟨?_, ?_⟩ <;>
    simp [execute, h₁, h₂, hm₁, hm₂, execMessage, Store.get_set_self,
      Store.countKey_set_self]

/-- First sample relay-mode arguments. -/
def argsMsgOneW : Args := { text := "first", mode := Mode.message }

/-- Second sample relay-mode arguments, staging a different payload. -/
def argsMsgTwoW : Args :=
  { text := "second", mode := Mode.message, agent := some "plan" }

/-- C5 witness: two concrete relay-mode invocations for session `s1`. -/
theorem c5_relay_last_writer_witness :
    envEmptyW.messages = Except.ok [] ∧
    argsMsgOneW.mode = Mode.message ∧
    argsMsgTwoW.mode = Mode.message ∧
    ((execute envEmptyW (execute envEmptyW stEmptyW argsMsgOneW tctxW).state
        argsMsgTwoW tctxW).state.pendingMessages.get tctxW.sessionID
       = some (relayPayload [] argsMsgTwoW (jsOrD argsMsgTwoW.directory tctxW.directory)) ∧
     (execute envEmptyW (execute envEmptyW stEmptyW argsMsgOneW tctxW).state
        argsMsgTwoW tctxW).state.pendingMessages.countKey tctxW.sessionID = 1) :=
  ⟨rfl, rfl, rfl,
   c5_relay_last_writer envEmptyW envEmptyW stEmptyW argsMsgOneW argsMsgTwoW
     tctxW [] [] rfl rfl rfl rfl⟩

/-- C10: in mode `compact` with a resolvable provider/model pair, a failing
marker prompt leaves every store unchanged — no pending compaction is
staged — and (the toast succeeding) the run returns an `Error:` string; the
entry is staged when the marker prompt succeeds. -/
theorem c10_marker_gates_staging (env₁ env₂ : Env) (st₁ st₂ : PState)
    (args₁ args₂ : Args) (tctx : ToolCtx) (msgs₁ msgs₂ : List MsgInfo)
    (e : String)
    (hmsgs₁ : env₁.messages = Except.ok msgs₁)
    (hmode₁ : args₁.mode = Mode.compact)
    (hp₁ : truthyS (jsOrS args₁.providerID (inheritedProviderID msgs₁)) = true)
    (hm₁ : truthyS (jsOrS args₁.modelID (inheritedModelID msgs₁)) = true)
    (hfail : env₁.prompt = Except.error e)
    (htoast : env₁.toast = Except.ok ())
    (hmsgs₂ : env₂.messages = Except.ok msgs₂)
    (hmode₂ : args₂.mode = Mode.compact)
    (hp₂ : truthyS (jsOrS args₂.providerID (inheritedProviderID msgs₂)) = true)
    (hm₂ : truthyS (jsOrS args₂.modelID (inheritedModelID msgs₂)) = true)
    (hok : env₂.prompt = Except.ok ()) :
    (execute env₁ st₁ args₁ tctx).state = st₁ ∧
    (execute env₁ st₁ args₁ tctx).outcome = Except.ok ("Error: " ++ e) ∧
    (execute env₂ st₂ args₂ tctx).state.pendingCompactions.get tctx.sessionID
      = some (compactPayload msgs₂ args₂ (jsOrD args₂.directory tctx.directory)
          (jsOrD (jsOrS args₂.providerID (inheritedProviderID msgs₂)) "")
          (jsOrD (jsOrS args₂.modelID (inheritedModelID msgs₂)) "")) := by
  refine ⟨?_, ?_, ?_⟩ <;>
    simp [execute, execCompact, hmsgs₁, hmsgs₂, hmode₁, hmode₂, hp₁, hm₁,
      hp₂, hm₂, hfail, hok, htoast, runCatch, Store.get_set_self]

/-- A sample assistant message carrying a full execution context. -/
def msgAW : MsgInfo :=
  { role := "assistant", agent := some "plan", modelID := some "m1"
    providerID := some "p1", system := none, tools := none }

/-- An oracle whose marker prompt rejects (session locked). -/
def envMarkerFailW : Env :=
  { messages := Except.ok [msgAW], prompt := Except.error "locked" }

/-- An oracle with an assistant message and all calls succeeding. -/
def envAssistantW : Env := { messages := Except.ok [msgAW] }

/-- C10 witness: a failing and a succeeding marker prompt at concrete
inputs. -/
theorem c10_marker_gates_staging_witness :
    envMarkerFailW.prompt = Except.error "locked" ∧
    envAssistantW.prompt = Except.ok () ∧
    truthyS (jsOrS argsCompactW.providerID (inheritedProviderID [msgAW])) = true ∧
    truthyS (jsOrS argsCompactW.modelID (inheritedModelID [msgAW])) = true ∧
    ((execute envMarkerFailW stEmptyW argsCompactW tctxW).state = stEmptyW ∧
     (execute envMarkerFailW stEmptyW argsCompactW tctxW).outcome
       = Except.ok ("Error: " ++ "locked") ∧
     (execute envAssistantW stEmptyW argsCompactW tctxW).state.pendingCompactions.get
         tctxW.sessionID
       = some (compactPayload [msgAW] argsCompactW
           (jsOrD argsCompactW.directory tctxW.directory)
           (jsOrD (jsOrS argsCompactW.providerID (inheritedProviderID [msgAW])) "")
           (jsOrD (jsOrS argsCompactW.modelID (inheritedModelID [msgAW])) ""))) :=
  ⟨rfl, rfl, by decide, by decide,
   c10_marker_gates_staging envMarkerFailW envAssistantW stEmptyW stEmptyW
     argsCompactW argsCompactW tctxW [msgAW] [msgAW] "locked" rfl rfl
     (by decide) (by decide) rfl rfl rfl rfl (by decide) (by decide) rfl⟩

/-- C9: in modes `new` and `fork`, when neither an explicit agent argument
nor an inherited agent exists, the first prompt into the new or forked
session is sent with agent `"build"` (not absent), and the returned
acknowledgement names `build`. -/
theorem c9_default_build (env₁ env₂ : Env) (st₁ st₂ : PState)
    (args₁ args₂ : Args) (tctx : ToolCtx) (msgs₁ msgs₂ : List MsgInfo)
    (nid fid : SessionID)
    (hmsgs₁ : env₁.messages = Except.ok msgs₁)
    (hmode₁ : args₁.mode = Mode.new)
    (hagent₁ : args₁.agent = none) (hinh₁ : inheritedAgent msgs₁ = none)
    (hcreate : env₁.create = Except.ok nid)
    (hsend₁ : (if args₁.async.getD false then env₁.promptAsync else env₁.prompt)
      = Except.ok ())
    (hmsgs₂ : env₂.messages = Except.ok msgs₂)
    (hmode₂ : args₂.mode = Mode.fork)
    (hagent₂ : args₂.agent = none) (hinh₂ : inheritedAgent msgs₂ = none)
    (hfork : env₂.fork = Except.ok fid) (htitle : args₂.title = none)
    (hsend₂ : (if args₂.async.getD false then env₂.promptAsync else env₂.prompt)
      = Except.ok ()) :
    (firstPromptBody msgs₁ args₁ "build").agent = some "build" ∧
    (execute env₁ st₁ args₁ tctx).calls
      = [Call.messages tctx.sessionID tctx.directory,
         Call.create (jsOrD args₁.directory tctx.directory)
           (jsOrD args₁.title "New session"),
         (if args₁.async.getD false then
            Call.promptAsync nid (jsOrD args₁.directory tctx.directory)
              (firstPromptBody msgs₁ args₁ "build")
          else
            Call.prompt nid (jsOrD args₁.directory tctx.directory)
              (firstPromptBody msgs₁ args₁ "build"))] ∧
    (execute env₁ st₁ args₁ tctx).outcome
      = Except.ok (if args₁.async.getD false then
          "New session created with build agent (async prompt, ID: " ++ nid ++ ")"
        else "New session created with build agent (ID: " ++ nid ++ ")") ∧
    (firstPromptBody msgs₂ args₂ "build").agent = some "build" ∧
    (execute env₂ st₂ args₂ tctx).calls
      = [Call.messages tctx.sessionID tctx.directory,
         Call.fork tctx.sessionID (jsOrD args₂.directory tctx.directory),
         (if args₂.async.getD false then
            Call.promptAsync fid (jsOrD args₂.directory tctx.directory)
              (firstPromptBody msgs₂ args₂ "build")
          else
            Call.prompt fid (jsOrD args₂.directory tctx.directory)
              (firstPromptBody msgs₂ args₂ "build"))] ∧
    (execute env₂ st₂ args₂ tctx).outcome
      = Except.ok (if args₂.async.getD false then
          "Forked session with build agent (async prompt) - history preserved (ID: "
            ++ fid ++ ")"
        else "Forked session with build agent - history preserved (ID: "
            ++ fid ++ ")") := by
  cases hb₁ : args₁.async.getD false <;> cases hb₂ : args₂.async.getD false <;>
    rw [hb₁] at hsend₁ <;> rw [hb₂] at hsend₂ <;>
    simp only [Bool.false_eq_true, if_false, if_true, ite_true,
      ite_false] at hsend₁ hsend₂ <;>
    refine ⟨rfl, ?_, ?_, rfl, ?_, ?_⟩ <;>
    simp [execute, execNew, execFork, execForkSend, hmsgs₁, hmsgs₂, hmode₁,
      hmode₂, hagent₁, hagent₂, hinh₁, hinh₂, hcreate, hfork, htitle, hsend₁,
      hsend₂, hb₁, hb₂, jsOrS, jsOrD, truthyS]

/-- Sample handoff-mode arguments with no agent. -/
def argsNewW : Args := { text := "hello", mode := Mode.new }

/-- Sample fork-mode arguments with no agent and no title. -/
def argsForkW : Args := { text := "try", mode := Mode.fork }

/-- An oracle with an empty history whose `create` returns `n1`. -/
def envCreateW : Env := { messages := Except.ok [], create := Except.ok "n1" }

/-- An oracle with an empty history whose `fork` returns `f1`. -/
def envForkW : Env := { messages := Except.ok [], fork := Except.ok "f1" }

/-- C9 witness: concrete `new` and `fork` invocations over an empty
history. -/
theorem c9_default_build_witness :
    argsNewW.agent = none ∧
    inheritedAgent [] = none ∧
    envCreateW.create = Except.ok "n1" ∧
    envForkW.fork = Except.ok "f1" ∧
    ((firstPromptBody [] argsNewW "build").agent = some "build" ∧
     (execute envCreateW stEmptyW argsNewW tctxW).calls
       = [Call.messages tctxW.sessionID tctxW.directory,
          Call.create (jsOrD argsNewW.directory tctxW.directory)
            (jsOrD argsNewW.title "New session"),
          (if argsNewW.async.getD false then
             Call.promptAsync "n1" (jsOrD argsNewW.directory tctxW.directory)
               (firstPromptBody [] argsNewW "build")
           else
             Call.prompt "n1" (jsOrD argsNewW.directory tctxW.directory)
               (firstPromptBody [] argsNewW "build"))] ∧
     (execute envCreateW stEmptyW argsNewW tctxW).outcome
       = Except.ok (if argsNewW.async.getD false then
           "New session created with build agent (async prompt, ID: " ++ "n1" ++ ")"
         else "New session created with build agent (ID: " ++ "n1" ++ ")") ∧
     (firstPromptBody [] argsForkW "build").agent = some "build" ∧
     (execute envForkW stEmptyW argsForkW tctxW).calls
       = [Call.messages tctxW.sessionID tctxW.directory,
          Call.fork tctxW.sessionID (jsOrD argsForkW.directory tctxW.directory),
          (if argsForkW.async.getD false then
             Call.promptAsync "f1" (jsOrD argsForkW.directory tctxW.directory)
               (firstPromptBody [] argsForkW "build")
           else
             Call.prompt "f1" (jsOrD argsForkW.directory tctxW.directory)
               (firstPromptBody [] argsForkW "build"))] ∧
     (execute envForkW stEmptyW argsForkW tctxW).outcome
       = Except.ok (if argsForkW.async.getD false then
           "Forked session with build agent (async prompt) - history preserved (ID: "
             ++ "f1" ++ ")"
         else "Forked session with build agent - history preserved (ID: "
             ++ "f1" ++ ")")) :=
  ⟨rfl, rfl, rfl, rfl,
   c9_default_build envCreateW envForkW stEmptyW stEmptyW argsNewW argsForkW
     tctxW [] [] "n1" "f1" rfl rfl rfl rfl rfl rfl rfl rfl rfl rfl rfl rfl rfl⟩

/-- The outer catch always records the toast attempt and returns the error
text exactly when the toast call itself succeeds. -/
theorem runCatch_spec (env : Env) (st : PState) (C : List Call) (m : String) :
    Call.toast ("Session operation failed: " ++ m) "error"
        ∈ (runCatch env st C m).calls ∧
    (runCatch env st C m).outcome
      = (match env.toast with
          | Except.ok _ => Except.ok ("Error: " ++ m)
          | Except.error e => Except.error e) := by
  constructor
  · simp [runCatch]
  · rfl

/-- Arguments used in the C7 counterexample. -/
def argsMsgPlainW : Args := { text := "hi", mode := Mode.message }

/-- An oracle whose messages fetch and toast call both reject. -/
def envDoubleFailW : Env :=
  { messages := Except.error "boom", toast := Except.error "toastfail" }

/-- C7 counterexample: when the primary remote call fails AND the toast
call itself rejects, the handler does not return an `Error:` string — the
toast rejection propagates out of `execute`, contradicting the claim that
the operation always returns `"Error: <message>"` rather than propagating. -/
theorem c7_counterexample :
    firstError envDoubleFailW argsMsgPlainW = some "boom" ∧
    (execute envDoubleFailW stEmptyW argsMsgPlainW tctxW).outcome
      = Except.error "toastfail" ∧
    (execute envDoubleFailW stEmptyW argsMsgPlainW tctxW).outcome
      ≠ Except.ok "Error: boom" := by
  refine ⟨rfl, rfl, by decide⟩

/-- C7 (amended): when any remote call of an `execute` run throws, the
error is caught, the toast notification is attempted, and — provided the
toast call itself succeeds — the run returns `"Error: <message>"` instead
of propagating; when the toast call itself rejects, that rejection
propagates out of the handler. -/
theorem c7_catch_amended (env : Env) (st : PState) (args : Args)
    (tctx : ToolCtx) (m : String)
    (h : firstError env args = some m) :
    Call.toast ("Session operation failed: " ++ m) "error"
        ∈ (execute env st args tctx).calls ∧
    (execute env st args tctx).outcome
      = (match env.toast with
          | Except.ok _ => Except.ok ("Error: " ++ m)
          | Except.error e => Except.error e) := by
  unfold firstError at h
  cases hmsg : env.messages with
  | error e =>
    rw [hmsg] at h
    simp at h
    subst h
    constructor <;> simp [execute, hmsg, runCatch]
  | ok msgs =>
    rw [hmsg] at h
    cases hmode : args.mode <;> rw [hmode] at h
    · simp at h
    · cases hcr : env.create with
      | error e =>
        rw [hcr] at h
        simp at h
        subst h
        constructor <;> simp [execute, execNew, hmsg, hmode, hcr, runCatch]
      | ok nid =>
        rw [hcr] at h
        cases hb : args.async.getD false <;> rw [hb] at h
        · cases hp : env.prompt with
          | error e =>
            rw [hp] at h
            simp at h
            subst h
            constructor <;>
              simp [execute, execNew, hmsg, hmode, hcr, hb, hp, runCatch]
          | ok u =>
            rw [hp] at h
            simp at h
        · cases hp : env.promptAsync with
          | error e =>
            rw [hp] at h
            simp at h
            subst h
            constructor <;>
              simp [execute, execNew, hmsg, hmode, hcr, hb, hp, runCatch]
          | ok u =>
            rw [hp] at h
            simp at h
    · simp only [] at h
      cases hres : (!truthyS (jsOrS args.providerID (inheritedProviderID msgs))
          || !truthyS (jsOrS args.modelID (inheritedModelID msgs))) <;>
        rw [hres] at h
      · cases hp : env.prompt with
        | error e =>
          rw [hp] at h
          simp at h
          subst h
          constructor <;>
            simp [execute, execCompact, hmsg, hmode, hres, hp, runCatch]
        | ok u =>
          rw [hp] at h
          simp at h
      · simp at h
    · cases hfk : env.fork with
      | error e =>
        rw [hfk] at h
        simp at h
        subst h
        constructor <;> simp [execute, execFork, hmsg, hmode, hfk, runCatch]
      | ok fid =>
        rw [hfk] at h
        cases ht : truthyS args.title <;> rw [ht] at h
        · cases hb : args.async.getD false <;> rw [hb] at h
          · cases hp : env.prompt with
            | error e =>
              rw [hp] at h
              simp at h
              subst h
              constructor <;> simp [execute, execFork, execForkSend, hmsg,
                hmode, hfk, ht, hb, hp, runCatch]
            | ok u =>
              rw [hp] at h
              simp at h
          · cases hp : env.promptAsync with
            | error e =>
              rw [hp] at h
              simp at h
              subst h
              constructor <;> simp [execute, execFork, execForkSend, hmsg,
                hmode, hfk, ht, hb, hp, runCatch]
            | ok u =>
              rw [hp] at h
              simp at h
        · cases hu : env.update with
          | error e =>
            rw [hu] at h
            simp at h
            subst h
            constructor <;>
              simp [execute, execFork, hmsg, hmode, hfk, ht, hu, runCatch]
          | ok u =>
            rw [hu] at h
            cases hb : args.async.getD false <;> rw [hb] at h
            · cases hp : env.prompt with
              | error e =>
                rw [hp] at h
                simp at h
                subst h
                constructor <;> simp [execute, execFork, execForkSend, hmsg,
                  hmode, hfk, ht, hu, hb, hp, runCatch]
              | ok v =>
                rw [hp] at h
                simp at h
            · cases hp : env.promptAsync with
              | error e =>
                rw [hp] at h
                simp at h
                subst h
                constructor <;> simp [execute, execFork, execForkSend, hmsg,
                  hmode, hfk, ht, hu, hb, hp, runCatch]
              | ok v =>
                rw [hp] at h
                simp at h

/-- C7 witness: a failing `create` call in mode `new`, toast succeeding. -/
theorem c7_catch_amended_witness :
    firstError { messages := Except.ok [], create := Except.error "down" }
        argsNewW = some "down" ∧
    (Call.toast ("Session operation failed: " ++ "down") "error"
        ∈ (execute { messages := Except.ok [], create := Except.error "down" }
            stEmptyW argsNewW tctxW).calls ∧
     (execute { messages := Except.ok [], create := Except.error "down" }
         stEmptyW argsNewW tctxW).outcome
       = (match ({ messages := Except.ok [], create := Except.error "down" } : Env).toast with
           | Except.ok _ => Except.ok ("Error: " ++ "down")
           | Except.error e => Except.error e)) :=
  ⟨rfl,
   c7_catch_amended { messages := Except.ok [], create := Except.error "down" }
     stEmptyW argsNewW tctxW "down" rfl⟩

/-- A plain user message, used as filler in histories. -/
def msgUserW : MsgInfo := { role := "user" }

/-- Arguments supplying an explicit — but empty — `agent` string. -/
def argsEmptyAgentW : Args :=
  { text := "t", mode := Mode.message, agent := some "" }

/-- C8 counterexample: an explicitly supplied empty-string `agent` argument
does not override the inherited agent — JavaScript `||` treats `""` as
falsy — so the staged relay keeps the inherited `plan` instead of the
caller's explicit value. -/
theorem c8_counterexample :
    argsEmptyAgentW.agent = some "" ∧
    inheritedAgent [msgAW] = some "plan" ∧
    (relayPayload [msgAW] argsEmptyAgentW "/w").agent = some "plan" ∧
    (relayPayload [msgAW] argsEmptyAgentW "/w").agent ≠ some "" := by
  refine ⟨rfl, by decide, by decide, by decide⟩

/-- C8 (amended): context inheritance reads the most recent assistant-role
message in arrival order; with no assistant message every inherited field
resolves to absent; and each explicit NON-EMPTY caller argument overrides
the inherited value for its field only (JavaScript `||` treats the empty
string as unsupplied), while a field with no argument keeps its inherited
value. -/
theorem c8_inheritance_amended (l₁ l₂ msgs : List MsgInfo) (a : MsgInfo)
    (args : Args) (dir : String) (v : String)
    (ha : a.role = "assistant") (hl₂ : ∀ m ∈ l₂, m.role ≠ "assistant")
    (hno : ∀ m ∈ msgs, m.role ≠ "assistant")
    (hv : v ≠ "") (hag : args.agent = some v) (hmo : args.modelID = none) :
    lastAssistant (l₁ ++ a :: l₂) = some a ∧
    inheritedAgent msgs = none ∧
    inheritedModelID msgs = none ∧
    inheritedProviderID msgs = none ∧
    inheritedSystem msgs = none ∧
    inheritedTools msgs = none ∧
    (relayPayload (l₁ ++ a :: l₂) args dir).agent = some v ∧
    (relayPayload (l₁ ++ a :: l₂) args dir).modelID
      = inheritedModelID (l₁ ++ a :: l₂) := by
  have h2 : l₂.filter (fun m => m.role == "assistant") = [] :=
    List.filter_eq_nil_iff.mpr (fun m hm => by simpa using hl₂ m hm)
  have hla : lastAssistant (l₁ ++ a :: l₂) = some a := by
    unfold lastAssistant
    rw [List.filter_append, List.filter_cons_of_pos (by simp [ha]), h2]
    rw [List.getLast?_concat]
  have hnone := lastAssistant_eq_none msgs hno
  refine ⟨hla, ?_, ?_, ?_, ?_, ?_, ?_, ?_⟩
  · simp [inheritedAgent, hnone]
  · simp [inheritedModelID, hnone]
  · simp [inheritedProviderID, hnone]
  · simp [inheritedSystem, hnone]
  · simp [inheritedTools, hnone]
  · simp [relayPayload, jsOrS, hag, hv]
  · simp [relayPayload, jsOrS, hmo]

/-- Arguments supplying a non-empty agent and no model. -/
def argsAgentXW : Args := { text := "t", mode := Mode.message, agent := some "x" }

/-- C8 witness: a history `[user, assistant, user]` and an explicit
non-empty agent argument, at concrete values. -/
theorem c8_inheritance_amended_witness :
    msgAW.role = "assistant" ∧
    argsAgentXW.agent = some "x" ∧
    argsAgentXW.modelID = none ∧
    (lastAssistant ([msgUserW] ++ msgAW :: [msgUserW]) = some msgAW ∧
     inheritedAgent [] = none ∧
     inheritedModelID [] = none ∧
     inheritedProviderID [] = none ∧
     inheritedSystem [] = none ∧
     inheritedTools [] = none ∧
     (relayPayload ([msgUserW] ++ msgAW :: [msgUserW]) argsAgentXW "/w").agent
       = some "x" ∧
     (relayPayload ([msgUserW] ++ msgAW :: [msgUserW]) argsAgentXW "/w").modelID
       = inheritedModelID ([msgUserW] ++ msgAW :: [msgUserW])) :=
  ⟨rfl, rfl, rfl,
   c8_inheritance_amended [msgUserW] [msgUserW] [] msgAW argsAgentXW "/w" "x"
     rfl (by decide) (by simp) (by decide) rfl rfl⟩

end Sessions
